import Mathlib

/-!
Verification of `facefusion_batch.py` (foxreymann/ffauto) against its
natural-language specification.

The script is embedded shallowly: `pathlib.Path.stem` / `.suffix` / `.name`
become functions on strings, the filesystem becomes an explicit existence
predicate `String → Bool` plus a directory listing `List Entry`, the
subprocess call becomes an abstract per-job environment `JobEnv`, and the
control flow of `__init__`, `_validate_inputs`, `process_single_image`,
`process_batch` and `main` becomes pure functions over those data.
-/

namespace FFB

/-- Index of the last occurrence of `c` in `s` (Python `str.rfind`,
restricted to the found case). -/
def rfindPos (c : Char) : List Char → Option Nat
  | [] => none
  | a :: t =>
    match rfindPos c t with
    | some i => some (i + 1)
    | none => if a = c then some 0 else none

/-- CPython `PurePath._splitext` semantics on a file name:
split at the last dot provided it is neither the first nor the last
character; otherwise the stem is the whole name and the suffix empty. -/
def splitExt (name : List Char) : List Char × List Char :=
  match rfindPos '.' name with
  | some i => if 0 < i ∧ i + 1 < name.length then (name.take i, name.drop i) else (name, [])
  | none => (name, [])

/-- Drop trailing '/' characters (pathlib normalises `a/b/` to `a/b`). -/
def stripTrailingSlashes (s : List Char) : List Char :=
  (s.reverse.dropWhile (fun c => c = '/')).reverse

/-- `pathlib.Path(p).name`: the final path component. -/
def nameOfPath (p : String) : String :=
  match rfindPos '/' (stripTrailingSlashes p.data) with
  | some i => String.mk ((stripTrailingSlashes p.data).drop (i + 1))
  | none => String.mk (stripTrailingSlashes p.data)

/-- `pathlib.Path(p).stem`. -/
def pathStem (p : String) : String :=
  String.mk (splitExt (nameOfPath p).data).1

/-- `pathlib.Path(p).suffix`. -/
def pathSuffix (p : String) : String :=
  String.mk (splitExt (nameOfPath p).data).2

/-- Line 99 of `facefusion_batch.py`:
`output_filename = f"{self.source_image.stem}_to_{target_image.stem}{target_image.suffix}"`. -/
def output_filename (source_path target_path : String) : String :=
  pathStem source_path ++ "_to_" ++ pathStem target_path ++ pathSuffix target_path

theorem splitExt_fst_append_snd (name : List Char) :
    (splitExt name).1 ++ (splitExt name).2 = name := by
  unfold splitExt
  cases h : rfindPos '.' name with
  | none => simp
  | some i =>
    by_cases hi : 0 < i ∧ i + 1 < name.length
    · simp [hi, List.take_append_drop]
    · simp [hi]

theorem pathStem_append_pathSuffix (p : String) :
    pathStem p ++ pathSuffix p = nameOfPath p := by
  show String.mk ((splitExt (nameOfPath p).data).1 ++ (splitExt (nameOfPath p).data).2)
      = nameOfPath p
  rw [splitExt_fst_append_snd]

theorem pathStem_eq_of_nameOfPath_eq {t1 t2 : String}
    (h : nameOfPath t1 = nameOfPath t2) : pathStem t1 = pathStem t2 := by
  unfold pathStem; rw [h]

/-- Python string comparison: lexicographic by code point.
`sorted()` on paths that share one directory prefix orders them exactly by
this comparison on the file names. -/
def charListLe : List Char → List Char → Bool
  | [], _ => true
  | _ :: _, [] => false
  | a :: as, b :: bs => if a < b then true else if b < a then false else charListLe as bs

/-- Boolean comparison on strings, the order `sorted()` uses. -/
def strLe (a b : String) : Bool := charListLe a.data b.data

theorem charListLe_cons (a b : Char) (as bs : List Char) :
    charListLe (a :: as) (b :: bs) = true ↔
      a < b ∨ (a = b ∧ charListLe as bs = true) := by
  by_cases hab : a < b
  · simp [charListLe, hab]
  · by_cases hba : b < a
    · have hne : a ≠ b := fun h => absurd (h ▸ hba) (lt_irrefl a)
      simp [charListLe, hab, hba, hne]
    · have heq : a = b := le_antisymm (not_lt.mp hba) (not_lt.mp hab)
      simp [charListLe, hab, hba, heq]

theorem charListLe_iff_lex :
    ∀ (as bs : List Char), charListLe as bs = true ↔ as = bs ∨ List.Lex (· < ·) as bs
  | [], [] => by simp [charListLe]
  | [], _ :: _ => by simpa [charListLe] using List.Lex.nil
  | _ :: _, [] => by simp [charListLe]
  | a :: as, b :: bs => by
    rw [charListLe_cons]
    constructor
    · rintro (hab | ⟨rfl, h⟩)
      · exact Or.inr (.rel hab)
      · rcases (charListLe_iff_lex as bs).mp h with rfl | h2
        · exact Or.inl rfl
        · exact Or.inr (.cons h2)
    · rintro (heq | hlex)
      · injection heq with h1 h2
        subst h1; subst h2
        exact Or.inr ⟨rfl, (charListLe_iff_lex as as).mpr (Or.inl rfl)⟩
      · cases hlex with
        | rel h => exact Or.inl h
        | cons h => exact Or.inr ⟨rfl, (charListLe_iff_lex as bs).mpr (Or.inr h)⟩

theorem charListLe_trans :
    ∀ (as bs cs : List Char), charListLe as bs = true → charListLe bs cs = true →
      charListLe as cs = true
  | [], _, _, _, _ => rfl
  | _ :: _, [], _, h1, _ => Bool.noConfusion h1
  | _ :: _, _ :: _, [], _, h2 => Bool.noConfusion h2
  | a :: as, b :: bs, c :: cs, h1, h2 => by
    rcases (charListLe_cons a b as bs).mp h1 with hab | ⟨rfl, h1x⟩
    · rcases (charListLe_cons _ c bs cs).mp h2 with hbc | ⟨rfl, h2x⟩
      · exact (charListLe_cons a c as cs).mpr (Or.inl (lt_trans hab hbc))
      · exact (charListLe_cons a _ as cs).mpr (Or.inl hab)
    · rcases (charListLe_cons a c bs cs).mp h2 with hbc | ⟨rfl, h2x⟩
      · exact (charListLe_cons a c as cs).mpr (Or.inl hbc)
      · exact (charListLe_cons a a as cs).mpr
          (Or.inr ⟨rfl, charListLe_trans as bs cs h1x h2x⟩)

theorem charListLe_total :
    ∀ (as bs : List Char), (charListLe as bs || charListLe bs as) = true
  | [], _ => rfl
  | _ :: _, [] => rfl
  | a :: as, b :: bs => by
    rcases lt_trichotomy a b with hab | hab | hab
    · have := (charListLe_cons a b as bs).mpr (Or.inl hab)
      simp [this]
    · subst hab
      rcases Bool.or_eq_true_iff.mp (charListLe_total as bs) with h | h
      · have := (charListLe_cons a a as bs).mpr (Or.inr ⟨rfl, h⟩)
        simp [this]
      · have := (charListLe_cons a a bs as).mpr (Or.inr ⟨rfl, h⟩)
        simp [this]
    · have := (charListLe_cons b a bs as).mpr (Or.inl hab)
      simp [this]

/-- `strLe` as a relation, for use with `List.insertionSort`. -/
def strLeP (a b : String) : Prop := strLe a b = true

instance : DecidableRel strLeP := fun a b => instDecidableEqBool (strLe a b) true

instance : IsTotal String strLeP :=
  ⟨fun a b => (Bool.or_eq_true_iff.mp (charListLe_total a.data b.data)).imp id id⟩

instance : IsTrans String strLeP :=
  ⟨fun a b c h1 h2 => charListLe_trans a.data b.data c.data h1 h2⟩

/-- One entry of `target_dir.iterdir()`: its file name and whether
`entry.is_file()` holds (subdirectories and other non-regular entries
have it `false`). -/
structure Entry where
  name : String
  is_file : Bool
deriving DecidableEq

/-- Line 70: `image_extensions = {'.jpg', '.jpeg', '.png', '.bmp', '.tiff', '.webp'}`. -/
def image_extensions : List String := [".jpg", ".jpeg", ".png", ".bmp", ".tiff", ".webp"]

/-- Python `str.lower()` (ASCII case folding, which is all the extension
comparison exercises). -/
def strLower (s : String) : String := String.mk (s.data.map Char.toLower)

/-- Lines 69–77, `_get_target_images`: keep regular files whose lower-cased
suffix is a supported image extension, and return them sorted.  The Python
code sorts the full paths with `sorted()`; since they share the directory
prefix, that is the same order as sorting the file names.  Because `strLeP`
is a total order that is antisymmetric on the (pairwise distinct) names of
one directory, the sorted permutation is unique, so insertion sort computes
the same list `sorted()` does. -/
def get_target_images (listing : List Entry) : List String :=
  List.insertionSort strLeP
    ((listing.filter
        (fun e => e.is_file && image_extensions.contains (strLower (pathSuffix e.name)))).map
      (fun e => e.name))

theorem get_target_images_sorted (listing : List Entry) :
    (get_target_images listing).Pairwise (fun a b => a.data = b.data ∨ List.Lex (· < ·) a.data b.data) := by
  unfold get_target_images
  have h := List.sorted_insertionSort strLeP
    ((listing.filter
        (fun e => e.is_file && image_extensions.contains (strLower (pathSuffix e.name)))).map
      (fun e => e.name))
  refine h.imp (fun hx => ?_)
  have := (charListLe_iff_lex _ _).mp hx
  rcases this with h1 | h1
  · exact Or.inl h1
  · exact Or.inr h1

theorem get_target_images_mem (listing : List Entry) (n : String) :
    n ∈ get_target_images listing ↔
      ∃ e, e ∈ listing ∧ e.name = n ∧ e.is_file = true ∧
        strLower (pathSuffix n) ∈ image_extensions := by
  unfold get_target_images
  rw [List.mem_insertionSort]
  simp only [List.mem_map, List.mem_filter, Bool.and_eq_true]
  constructor
  · rintro ⟨e, ⟨he, hf, hext⟩, rfl⟩
    exact ⟨e, he, rfl, hf, by simpa using hext⟩
  · rintro ⟨e, he, rfl, hf, hext⟩
    exact ⟨e, ⟨he, hf, by simpa using hext⟩, rfl⟩

/-- Python exceptions the script can raise or meet during construction. -/
inductive PyError where
  | attributeError : PyError
  | fileNotFoundError : String → PyError
  | valueError : String → PyError
deriving DecidableEq

/-- Lines 32–37: the ordered candidate list of `_find_facefusion`,
parametrised by `Path.home()` and `Path.cwd()`. -/
def possible_paths (home cwd : String) : List String :=
  [home ++ "/facefusion",
   cwd ++ "/facefusion",
   "/opt/facefusion",
   home ++ "/projects/facefusion"]

/-- Lines 45–48: the message of the `FileNotFoundError` raised when no
candidate matches (two adjacent Python string literals, concatenated). -/
def facefusion_not_found_msg : String :=
  "FaceFusion installation not found. Please specify the path using --facefusion-path or install it in one of the default locations: ~/facefusion, ./facefusion, /opt/facefusion"

/-- Lines 31–48, `_find_facefusion`.  `ex` is the filesystem existence
predicate (`Path.exists`).  `verbose?` models the state of the instance
attribute `self.verbose` at call time: `__init__` assigns `self.verbose`
on line 26, *after* line 23 has already called `_find_facefusion`, so at
the only call site the attribute does not exist yet (`verbose? = none`)
and the read `if self.verbose:` on line 41 — reached exactly when a
candidate matches — raises `AttributeError`. -/
def find_facefusion (ex : String → Bool) (home cwd : String) (verbose? : Option Bool) :
    Except PyError String :=
  match (possible_paths home cwd).find? (fun p => ex p && ex (p ++ "/facefusion.py")) with
  | some p =>
    match verbose? with
    | none => .error .attributeError
    | some _ => .ok p
  | none => .error (.fileNotFoundError facefusion_not_found_msg)

/-- Lines 50–62, `_validate_inputs`: four checks in textual order, the
first failing one raising; `listing` is the content of `target_dir`. -/
def validate_inputs (ex : String → Bool) (source_image target_dir facefusion_path : String)
    (listing : List Entry) : Except PyError Unit :=
  if ex source_image = false then
    .error (.fileNotFoundError ("Source image not found: " ++ source_image))
  else if ex target_dir = false then
    .error (.fileNotFoundError ("Target directory not found: " ++ target_dir))
  else if ex (facefusion_path ++ "/facefusion.py") = false then
    .error (.fileNotFoundError ("facefusion.py not found in: " ++ facefusion_path))
  else if get_target_images listing = [] then
    .error (.valueError ("No valid image files found in target directory: " ++ target_dir))
  else
    .ok ()

/-- Filesystem mutations the constructor can perform.
`mkdirParentsExistOk d` is `Path(d).mkdir(parents=True, exist_ok=True)`
(line 65): create `d` and its parents, tolerating prior existence. -/
inductive FsEffect where
  | mkdirParentsExistOk : String → FsEffect
deriving DecidableEq

/-- Line 23: `Path(facefusion_path) if facefusion_path else self._find_facefusion()`. -/
def locate (ex : String → Bool) (home cwd : String) :
    Option String → Except PyError String
  | some p => .ok p
  | none => find_facefusion ex home cwd none

/-- Lines 23–28 of `__init__` before `_prepare_output_dir`: resolve the
installation path (explicit argument, else `_find_facefusion` — called
before `self.verbose` is assigned, hence `verbose? = none`), then
`_validate_inputs`; the first exception propagates. -/
def initChecks (ex : String → Bool) (source_image target_dir : String)
    (facefusion_path : Option String) (home cwd : String) (listing : List Entry) :
    Except PyError String :=
  match locate ex home cwd facefusion_path with
  | .error e => .error e
  | .ok ffpath =>
    match validate_inputs ex source_image target_dir ffpath listing with
    | .error e => .error e
    | .ok _ => .ok ffpath

/-- Lines 14–29, `__init__`: the checks above, then `_prepare_output_dir`
(line 65's `mkdir`) exactly when they all passed.  Returns the resolved
installation path or the raised exception, paired with the list of
filesystem mutations actually performed, in order. -/
def ffInit (ex : String → Bool) (source_image target_dir output_dir : String)
    (facefusion_path : Option String) (home cwd : String) (listing : List Entry) :
    Except PyError String × List FsEffect :=
  match initChecks ex source_image target_dir facefusion_path home cwd listing with
  | .error e => (.error e, [])
  | .ok ffpath => (.ok ffpath, [.mkdirParentsExistOk output_dir])

/-- Lines 80–91 of `_build_command`: the fixed part of the argument list.
`python_executable` stands for `sys.executable`. -/
def base_command (python_executable facefusion_path source_image target_image output_path
    face_swapper_model execution_provider : String) : List String :=
  [python_executable,
   facefusion_path ++ "/facefusion.py",
   "headless-run",
   "--source", source_image,
   "--target", target_image,
   "--output", output_path,
   "--processors", "face_swapper",
   "--face-swapper-model", face_swapper_model,
   "--execution-providers", execution_provider,
   "--skip-download"]

/-- Lines 79–96, `_build_command`: the fixed argument list, extended by
`['--execution-device-id', '0']` exactly when the provider is `'cuda'`. -/
def build_command (python_executable facefusion_path source_image target_image output_path
    face_swapper_model execution_provider : String) : List String :=
  base_command python_executable facefusion_path source_image target_image output_path
      face_swapper_model execution_provider ++
    (if execution_provider = "cuda" then ["--execution-device-id", "0"] else [])

/-- What `subprocess.run` produced for one job. -/
structure RunOutcome where
  returncode : Int
  stdout : String
  stderr : String

/-- Either `subprocess.run` returned a completed process, or it (or the
surrounding code) raised — line 135's `except Exception`. -/
inductive RunResult where
  | finished : RunOutcome → RunResult
  | raised : RunResult

/-- The environment one job runs in: the filesystem before the subprocess
call, the subprocess outcome, and the filesystem after it. -/
structure JobEnv where
  fsBefore : String → Bool
  runResult : RunResult
  fsAfter : String → Bool

/-- Lines 98–137, `process_single_image`.  Returns the boolean the Python
function returns, paired with the number of subprocess invocations
attempted (0 or 1) — the observable "was the external tool spawned".
`target_image` is passed by file name; its stem and suffix agree with
those of the full path `target_dir/name`. -/
def process_single_image (source_image output_dir : String) (verbose : Bool)
    (target_image : String) (env : JobEnv) : Bool × Nat :=
  let output_path := output_dir ++ "/" ++ output_filename source_image target_image
  if env.fsBefore output_path && !verbose then
    (true, 0)
  else
    match env.runResult with
    | .raised => (false, 1)
    | .finished r =>
      if r.returncode = 0 then
        if env.fsAfter output_path then (true, 1) else (false, 1)
      else (false, 1)

/-- Lines 151–176, the tally loop of `process_batch`: each job's boolean
increments `successful` or `failed`; the loop never aborts.  (The Python
loop accumulates front to back; this recursion yields the same counts.) -/
def process_batch (source_image output_dir : String) (verbose : Bool) :
    List (String × JobEnv) → Nat × Nat
  | [] => (0, 0)
  | (t, env) :: rest =>
    let r := process_batch source_image output_dir verbose rest
    if (process_single_image source_image output_dir verbose t env).1 then
      (r.1 + 1, r.2)
    else
      (r.1, r.2 + 1)

/-- Total number of subprocess invocations a batch performs. -/
def batch_spawns (source_image output_dir : String) (verbose : Bool)
    (jobs : List (String × JobEnv)) : Nat :=
  (jobs.map (fun j => (process_single_image source_image output_dir verbose j.1 j.2).2)).sum

/-- How one run of `main` ends: `process_batch` completed with the given
counts, construction raised `FileNotFoundError`/`ValueError` (line 238),
the user interrupted (line 241), or any other exception (line 244). -/
inductive RunEvent where
  | completed : Nat → Nat → RunEvent
  | validationError : PyError → RunEvent
  | interrupt : RunEvent
  | unexpected : RunEvent

/-- Lines 223–249, the `try`/`except` of `main`, as the process exit
status each terminal event maps to. -/
def main_exit_code : RunEvent → Nat
  | .completed _ failed => if failed = 0 then 0 else 1
  | .validationError _ => 1
  | .interrupt => 130
  | .unexpected => 1

/-- Exit status when construction raises: `FileNotFoundError` and
`ValueError` hit line 238, `AttributeError` hits the catch-all on
line 244; all exit 1. -/
def main_exit_of_error : PyError → Nat
  | .fileNotFoundError _ => 1
  | .valueError _ => 1
  | .attributeError => 1

/-- Aggregate outcome of one non-interrupted run of `main`. -/
structure MainResult where
  exit_code : Nat
  successful : Nat
  failed : Nat
  spawns : Nat
deriving DecidableEq

/-- `main` without a user interrupt: construct (`ffInit`), and on success
run `process_batch` over the enumerated targets (the directory is scanned
again at batch start; the listing is assumed unchanged, as the spec's data
model states) and exit 0 iff no job failed. `envOf` gives each target its
job environment. -/
def run_main (ex : String → Bool) (source_image target_dir output_dir : String)
    (facefusion_path : Option String) (home cwd : String) (verbose : Bool)
    (listing : List Entry) (envOf : String → JobEnv) : MainResult :=
  match (ffInit ex source_image target_dir output_dir facefusion_path home cwd listing).1 with
  | .error e => ⟨main_exit_of_error e, 0, 0, 0⟩
  | .ok _ =>
    let jobs := (get_target_images listing).map (fun t => (t, envOf t))
    let r := process_batch source_image output_dir verbose jobs
    ⟨if r.2 = 0 then 0 else 1, r.1, r.2,
     batch_spawns source_image output_dir verbose jobs⟩

/-- `leadsWith needle hay` holds when `needle` is an initial segment of `hay`. -/
def leadsWith : List Char → List Char → Bool
  | [], _ => true
  | _ :: _, [] => false
  | a :: as, b :: bs => (a == b) && leadsWith as bs

/-- `hasSub needle hay`: `needle` occurs contiguously in `hay` (Python
`needle in hay` on strings); used to state what an error message names. -/
def hasSub (needle : List Char) : List Char → Bool
  | [] => needle.isEmpty
  | c :: t => leadsWith needle (c :: t) || hasSub needle t

/-- A Boolean skip guard `b && !v` is false when `b = true ∧ v = false` fails. -/
theorem skip_guard_false {b v : Bool} (h : ¬(b = true ∧ v = false)) :
    (b && !v) = false := by
  cases b <;> cases v <;> simp_all

theorem validate_inputs_ok_targets (ex : String → Bool) (src tgt ffp : String)
    (listing : List Entry) (h : validate_inputs ex src tgt ffp listing = .ok ()) :
    get_target_images listing ≠ [] := by
  unfold validate_inputs at h
  split at h
  · exact absurd h (by simp)
  · split at h
    · exact absurd h (by simp)
    · split at h
      · exact absurd h (by simp)
      · split at h
        · exact absurd h (by simp)
        · assumption

theorem initChecks_ok_targets (ex : String → Bool) (src tgt : String)
    (ffp : Option String) (home cwd : String) (listing : List Entry) (p : String)
    (h : initChecks ex src tgt ffp home cwd listing = .ok p) :
    get_target_images listing ≠ [] := by
  unfold initChecks at h
  cases hloc : locate ex home cwd ffp with
  | error e => rw [hloc] at h; simp at h
  | ok q =>
    rw [hloc] at h
    cases hval : validate_inputs ex src tgt q listing with
    | error e => simp [hval] at h
    | ok u => cases u; exact validate_inputs_ok_targets ex src tgt q listing hval

theorem ffInit_ok_targets (ex : String → Bool) (src tgt od : String)
    (ffp : Option String) (home cwd : String) (listing : List Entry) (p : String)
    (h : (ffInit ex src tgt od ffp home cwd listing).1 = .ok p) :
    get_target_images listing ≠ [] := by
  unfold ffInit at h
  cases hic : initChecks ex src tgt ffp home cwd listing with
  | error e => rw [hic] at h; simp at h
  | ok q => exact initChecks_ok_targets ex src tgt ffp home cwd listing q hic

/-- C1: for every source and target path, the output filename is the source
stem, then `"_to_"`, then the target stem, then the target extension
(`s.jpg`/`t.png` yields `s_to_t.png`); the mapping is a function of the two
paths (hence deterministic) and collision-free for distinct target stems. -/
theorem claim_C1_output_filename :
    (∀ s t : String,
        output_filename s t = pathStem s ++ "_to_" ++ pathStem t ++ pathSuffix t)
  ∧ output_filename "s.jpg" "t.png" = "s_to_t.png"
  ∧ (∀ s t1 t2 : String, pathStem t1 ≠ pathStem t2 →
        output_filename s t1 ≠ output_filename s t2) := by
  refine ⟨fun s t => rfl, by decide, fun s t1 t2 hne he => ?_⟩
  apply hne
  apply pathStem_eq_of_nameOfPath_eq
  have hd := congrArg String.data he
  simp only [output_filename, String.data_append, List.append_assoc] at hd
  have e1 := congrArg String.data (pathStem_append_pathSuffix t1)
  have e2 := congrArg String.data (pathStem_append_pathSuffix t2)
  simp only [String.data_append] at e1 e2
  rw [e1, e2] at hd
  exact congrArg String.mk (List.append_cancel_left (List.append_cancel_left hd))

/-- Witness for C1: two concrete targets with distinct stems yield distinct
output filenames. -/
theorem claim_C1_output_filename_witness :
    output_filename "s.jpg" "a.png" ≠ output_filename "s.jpg" "b.png" :=
  claim_C1_output_filename.2.2 "s.jpg" "a.png" "b.png" (by decide)

/-- C3: the enumerator returns exactly the names of the regular files of the
listing whose extension, lower-cased, is one of the six supported image
extensions; entries that are not regular files (subdirectories) and other
extensions are excluded; the result is lexicographically sorted (by code
point, equality-or-`List.Lex`); and the empty listing gives the empty
list. -/
theorem claim_C3_target_enumerator :
    (∀ listing n, n ∈ get_target_images listing ↔
        ∃ e, e ∈ listing ∧ e.name = n ∧ e.is_file = true ∧
          strLower (pathSuffix n) ∈ image_extensions)
  ∧ (∀ listing, (get_target_images listing).Pairwise
        (fun a b => a.data = b.data ∨ List.Lex (· < ·) a.data b.data))
  ∧ get_target_images [] = [] :=
  ⟨get_target_images_mem, get_target_images_sorted, rfl⟩

/-- A job environment in which the expected output file already exists. -/
def envPre : JobEnv := ⟨fun _ => true, .raised, fun _ => false⟩

/-- A job environment: subprocess exits 0 and the output file exists after. -/
def envOk : JobEnv := ⟨fun _ => false, .finished ⟨0, "", ""⟩, fun _ => true⟩

/-- A job environment: subprocess exits 0 but no output file appears. -/
def envSilent : JobEnv := ⟨fun _ => false, .finished ⟨0, "", ""⟩, fun _ => false⟩

/-- A job environment: subprocess exits 1. -/
def envExit1 : JobEnv := ⟨fun _ => false, .finished ⟨1, "", ""⟩, fun _ => true⟩

/-- A job environment: `subprocess.run` itself raises. -/
def envRaise : JobEnv := ⟨fun _ => false, .raised, fun _ => false⟩

/-- C4: when the derived output file already exists and verbose is off, the
job returns success with zero subprocess invocations; when verbose is on,
the existence check is skipped and the subprocess is invoked (exactly one
invocation) whatever the filesystem holds. -/
theorem claim_C4_skip_existing :
    (∀ source output_dir t env,
        env.fsBefore (output_dir ++ "/" ++ output_filename source t) = true →
        process_single_image source output_dir false t env = (true, 0))
  ∧ (∀ source output_dir t env,
        (process_single_image source output_dir true t env).2 = 1) := by
  constructor
  · intro s od t env h
    simp [process_single_image, h]
  · intro s od t env
    unfold process_single_image
    simp only [Bool.not_true, Bool.and_false, if_neg]
    cases env.runResult with
    | raised => rfl
    | finished r =>
      by_cases h : r.returncode = 0 <;> by_cases h2 : env.fsAfter (od ++ "/" ++ output_filename s t) = true <;>
        simp [h, h2]

/-- Witness for C4: an existing output is skipped with zero invocations when
verbose is off, and still spawns once when verbose is on. -/
theorem claim_C4_skip_existing_witness :
    process_single_image "s.jpg" "/out" false "a.jpg" envPre = (true, 0)
  ∧ (process_single_image "s.jpg" "/out" true "a.jpg" envPre).2 = 1 :=
  ⟨claim_C4_skip_existing.1 "s.jpg" "/out" "a.jpg" envPre rfl,
   claim_C4_skip_existing.2 "s.jpg" "/out" "a.jpg" envPre⟩

/-- C5: for a job that is not skipped, exit code 0 with the output present
afterwards is Success; exit code 0 with the output missing is Failed;
nonzero exit code is Failed; failure to launch the subprocess is Failed;
and the batch loop never aborts — every job is tallied, so the counts sum
to the number of targets. -/
theorem claim_C5_classification :
    (∀ source output_dir verbose t env r,
        ¬(env.fsBefore (output_dir ++ "/" ++ output_filename source t) = true ∧
            verbose = false) →
        env.runResult = .finished r → r.returncode = 0 →
        env.fsAfter (output_dir ++ "/" ++ output_filename source t) = true →
        process_single_image source output_dir verbose t env = (true, 1))
  ∧ (∀ source output_dir verbose t env r,
        ¬(env.fsBefore (output_dir ++ "/" ++ output_filename source t) = true ∧
            verbose = false) →
        env.runResult = .finished r → r.returncode = 0 →
        env.fsAfter (output_dir ++ "/" ++ output_filename source t) = false →
        process_single_image source output_dir verbose t env = (false, 1))
  ∧ (∀ source output_dir verbose t env r,
        ¬(env.fsBefore (output_dir ++ "/" ++ output_filename source t) = true ∧
            verbose = false) →
        env.runResult = .finished r → r.returncode ≠ 0 →
        process_single_image source output_dir verbose t env = (false, 1))
  ∧ (∀ source output_dir verbose t env,
        ¬(env.fsBefore (output_dir ++ "/" ++ output_filename source t) = true ∧
            verbose = false) →
        env.runResult = .raised →
        process_single_image source output_dir verbose t env = (false, 1))
  ∧ (∀ source output_dir verbose jobs,
        (process_batch source output_dir verbose jobs).1 +
          (process_batch source output_dir verbose jobs).2 = jobs.length) := by
  refine ⟨?_, ?_, ?_, ?_, ?_⟩
  · intro s od v t env r hskip hrun hrc hafter
    simp [process_single_image, skip_guard_false hskip, hrun, hrc, hafter]
  · intro s od v t env r hskip hrun hrc hafter
    simp [process_single_image, skip_guard_false hskip, hrun, hrc, hafter]
  · intro s od v t env r hskip hrun hrc
    simp [process_single_image, skip_guard_false hskip, hrun, hrc]
  · intro s od v t env hskip hrun
    simp [process_single_image, skip_guard_false hskip, hrun]
  · intro s od v jobs
    induction jobs with
    | nil => rfl
    | cons j rest ih =>
      obtain ⟨t, env⟩ := j
      cases h : (process_single_image s od v t env).1 with
      | true => simp [process_batch, h]; omega
      | false => simp [process_batch, h]; omega

/-- Witness for C5: the four classifications at concrete environments, and a
two-job batch in which the first job fails and the second succeeds still
tallies both. -/
theorem claim_C5_classification_witness :
    process_single_image "s.jpg" "/out" false "a.jpg" envOk = (true, 1)
  ∧ process_single_image "s.jpg" "/out" false "a.jpg" envSilent = (false, 1)
  ∧ process_single_image "s.jpg" "/out" false "a.jpg" envExit1 = (false, 1)
  ∧ process_single_image "s.jpg" "/out" false "a.jpg" envRaise = (false, 1)
  ∧ (process_batch "s.jpg" "/out" false [("a.jpg", envExit1), ("b.jpg", envOk)]).1 +
      (process_batch "s.jpg" "/out" false [("a.jpg", envExit1), ("b.jpg", envOk)]).2 = 2 :=
  ⟨claim_C5_classification.1 "s.jpg" "/out" false "a.jpg" envOk ⟨0, "", ""⟩
      (by simp [envOk]) rfl rfl rfl,
   claim_C5_classification.2.1 "s.jpg" "/out" false "a.jpg" envSilent ⟨0, "", ""⟩
      (by simp [envSilent]) rfl rfl rfl,
   claim_C5_classification.2.2.1 "s.jpg" "/out" false "a.jpg" envExit1 ⟨1, "", ""⟩
      (by simp [envExit1]) rfl (by decide),
   claim_C5_classification.2.2.2.1 "s.jpg" "/out" false "a.jpg" envRaise
      (by simp [envRaise]) rfl,
   claim_C5_classification.2.2.2.2 "s.jpg" "/out" false
      [("a.jpg", envExit1), ("b.jpg", envOk)]⟩

/-- Memberships in the fixed part of the command line. -/
theorem mem_base_command (x py ffp src tgt out model provider : String) :
    x ∈ base_command py ffp src tgt out model provider ↔
      (x = py ∨ x = ffp ++ "/facefusion.py" ∨ x = "headless-run" ∨
       x = "--source" ∨ x = src ∨ x = "--target" ∨ x = tgt ∨
       x = "--output" ∨ x = out ∨ x = "--processors" ∨ x = "face_swapper" ∨
       x = "--face-swapper-model" ∨ x = model ∨
       x = "--execution-providers" ∨ x = provider ∨ x = "--skip-download") := by
  simp [base_command]

/-- C6: the command builder is a pure function producing an argument list
that contains `--source`, `--target`, `--output` with their values, the
fixed processor selection `face_swapper`, the chosen model and provider,
and `--skip-download`; exactly for provider `"cuda"` the device-index pair
`--execution-device-id 0` is appended, and for every other legal provider
no device-index argument occurs. -/
theorem claim_C6_build_command :
    (∀ py ffp src tgt out model provider,
        "--source" ∈ build_command py ffp src tgt out model provider ∧
        src ∈ build_command py ffp src tgt out model provider ∧
        "--target" ∈ build_command py ffp src tgt out model provider ∧
        tgt ∈ build_command py ffp src tgt out model provider ∧
        "--output" ∈ build_command py ffp src tgt out model provider ∧
        out ∈ build_command py ffp src tgt out model provider ∧
        "--processors" ∈ build_command py ffp src tgt out model provider ∧
        "face_swapper" ∈ build_command py ffp src tgt out model provider ∧
        "--face-swapper-model" ∈ build_command py ffp src tgt out model provider ∧
        model ∈ build_command py ffp src tgt out model provider ∧
        "--execution-providers" ∈ build_command py ffp src tgt out model provider ∧
        provider ∈ build_command py ffp src tgt out model provider ∧
        "--skip-download" ∈ build_command py ffp src tgt out model provider)
  ∧ (∀ py ffp src tgt out model,
        build_command py ffp src tgt out model "cuda" =
          base_command py ffp src tgt out model "cuda" ++
            ["--execution-device-id", "0"])
  ∧ (∀ py ffp src tgt out model provider, provider ≠ "cuda" →
        build_command py ffp src tgt out model provider =
          base_command py ffp src tgt out model provider)
  ∧ (∀ py ffp src tgt out model provider,
        provider ∈ (["cpu", "directml", "openvino", "rocm"] : List String) →
        py ≠ "--execution-device-id" →
        ffp ++ "/facefusion.py" ≠ "--execution-device-id" →
        src ≠ "--execution-device-id" → tgt ≠ "--execution-device-id" →
        out ≠ "--execution-device-id" → model ≠ "--execution-device-id" →
        "--execution-device-id" ∉ build_command py ffp src tgt out model provider) := by
  refine ⟨?_, ?_, ?_, ?_⟩
  · intro py ffp src tgt out model provider
    simp [build_command, base_command]
  · intro py ffp src tgt out model
    simp [build_command]
  · intro py ffp src tgt out model provider h
    simp [build_command, h]
  · intro py ffp src tgt out model provider hp hpy hffp hsrc htgt hout hmodel
    simp only [List.mem_cons, List.not_mem_nil, or_false] at hp
    have hpc : provider ≠ "cuda" := by
      rcases hp with rfl | rfl | rfl | rfl <;> decide
    have hpd : provider ≠ "--execution-device-id" := by
      rcases hp with rfl | rfl | rfl | rfl <;> decide
    simp only [build_command, if_neg hpc, List.append_nil]
    rw [mem_base_command]
    rintro (h | h | h | h | h | h | h | h | h | h | h | h | h | h | h | h)
    · exact hpy h.symm
    · exact hffp h.symm
    · exact absurd h (by decide)
    · exact absurd h (by decide)
    · exact hsrc h.symm
    · exact absurd h (by decide)
    · exact htgt h.symm
    · exact absurd h (by decide)
    · exact hout h.symm
    · exact absurd h (by decide)
    · exact absurd h (by decide)
    · exact absurd h (by decide)
    · exact hmodel h.symm
    · exact absurd h (by decide)
    · exact hpd h.symm
    · exact absurd h (by decide)

/-- Witness for C6: with provider `cpu` and concrete paths, no device-index
argument occurs; the other conjuncts at the same inputs. -/
theorem claim_C6_build_command_witness :
    "--execution-device-id" ∉
      build_command "/usr/bin/python3" "/ff" "/s.jpg" "/t/a.jpg" "/o/x.jpg"
        "inswapper_128" "cpu"
  ∧ build_command "/usr/bin/python3" "/ff" "/s.jpg" "/t/a.jpg" "/o/x.jpg"
        "inswapper_128" "cpu" =
      base_command "/usr/bin/python3" "/ff" "/s.jpg" "/t/a.jpg" "/o/x.jpg"
        "inswapper_128" "cpu" :=
  ⟨claim_C6_build_command.2.2.2 "/usr/bin/python3" "/ff" "/s.jpg" "/t/a.jpg"
      "/o/x.jpg" "inswapper_128" "cpu" (by decide) (by decide) (by decide)
      (by decide) (by decide) (by decide) (by decide),
   claim_C6_build_command.2.2.1 "/usr/bin/python3" "/ff" "/s.jpg" "/t/a.jpg"
      "/o/x.jpg" "inswapper_128" "cpu" (by decide)⟩

theorem msg_src_ne_tgt (a b : String) :
    ("Source image not found: " ++ a) ≠ ("Target directory not found: " ++ b) := by
  intro h
  have h2 : (some 'S' : Option Char) = some 'T' :=
    congrArg (fun x : String => x.data.head?) h
  exact absurd h2 (by decide)

theorem msg_src_ne_ff (a b : String) :
    ("Source image not found: " ++ a) ≠ ("facefusion.py not found in: " ++ b) := by
  intro h
  have h2 : (some 'S' : Option Char) = some 'f' :=
    congrArg (fun x : String => x.data.head?) h
  exact absurd h2 (by decide)

theorem msg_tgt_ne_ff (a b : String) :
    ("Target directory not found: " ++ a) ≠ ("facefusion.py not found in: " ++ b) := by
  intro h
  have h2 : (some 'T' : Option Char) = some 'f' :=
    congrArg (fun x : String => x.data.head?) h
  exact absurd h2 (by decide)

/-- C7: `_validate_inputs` checks, in order: source exists, target directory
exists, `facefusion.py` exists under the installation path, at least one
supported target image — raising a distinct error at the first failing
check, with no later check observed; and an empty target set makes the
whole run exit 1 with zero subprocess invocations. -/
theorem claim_C7_validation_order :
    (∀ (ex : String → Bool) src tgt ffp listing, ex src = false →
        validate_inputs ex src tgt ffp listing =
          .error (.fileNotFoundError ("Source image not found: " ++ src)))
  ∧ (∀ (ex : String → Bool) src tgt ffp listing, ex src = true → ex tgt = false →
        validate_inputs ex src tgt ffp listing =
          .error (.fileNotFoundError ("Target directory not found: " ++ tgt)))
  ∧ (∀ (ex : String → Bool) src tgt ffp listing, ex src = true → ex tgt = true →
        ex (ffp ++ "/facefusion.py") = false →
        validate_inputs ex src tgt ffp listing =
          .error (.fileNotFoundError ("facefusion.py not found in: " ++ ffp)))
  ∧ (∀ (ex : String → Bool) src tgt ffp listing, ex src = true → ex tgt = true →
        ex (ffp ++ "/facefusion.py") = true → get_target_images listing = [] →
        validate_inputs ex src tgt ffp listing =
          .error (.valueError
            ("No valid image files found in target directory: " ++ tgt)))
  ∧ (∀ a b c d : String,
        (PyError.fileNotFoundError ("Source image not found: " ++ a) ≠
          PyError.fileNotFoundError ("Target directory not found: " ++ b)) ∧
        (PyError.fileNotFoundError ("Source image not found: " ++ a) ≠
          PyError.fileNotFoundError ("facefusion.py not found in: " ++ c)) ∧
        (PyError.fileNotFoundError ("Target directory not found: " ++ b) ≠
          PyError.fileNotFoundError ("facefusion.py not found in: " ++ c)) ∧
        (PyError.fileNotFoundError ("Source image not found: " ++ a) ≠
          PyError.valueError
            ("No valid image files found in target directory: " ++ d)) ∧
        (PyError.fileNotFoundError ("Target directory not found: " ++ b) ≠
          PyError.valueError
            ("No valid image files found in target directory: " ++ d)) ∧
        (PyError.fileNotFoundError ("facefusion.py not found in: " ++ c) ≠
          PyError.valueError
            ("No valid image files found in target directory: " ++ d)))
  ∧ (∀ (ex : String → Bool) src tgt od ffp home cwd verbose listing envOf,
        get_target_images listing = [] →
        (run_main ex src tgt od ffp home cwd verbose listing envOf).exit_code = 1 ∧
        (run_main ex src tgt od ffp home cwd verbose listing envOf).spawns = 0) := by
  refine ⟨?_, ?_, ?_, ?_, ?_, ?_⟩
  · intro ex src tgt ffp listing h
    simp [validate_inputs, h]
  · intro ex src tgt ffp listing h1 h2
    simp [validate_inputs, h1, h2]
  · intro ex src tgt ffp listing h1 h2 h3
    simp [validate_inputs, h1, h2, h3]
  · intro ex src tgt ffp listing h1 h2 h3 h4
    simp [validate_inputs, h1, h2, h3, h4]
  · intro a b c d
    refine ⟨?_, ?_, ?_, by simp, by simp, by simp⟩
    · intro h; exact msg_src_ne_tgt a b (by injection h)
    · intro h; exact msg_src_ne_ff a c (by injection h)
    · intro h; exact msg_tgt_ne_ff b c (by injection h)
  · intro ex src tgt od ffp home cwd verbose listing envOf hempty
    unfold run_main
    cases hinit : (ffInit ex src tgt od ffp home cwd listing).1 with
    | error e => cases e <;> simp [main_exit_of_error]
    | ok p =>
      exact absurd hempty
        (ffInit_ok_targets ex src tgt od ffp home cwd listing p hinit)

/-- A degenerate job environment used to instantiate `envOf` in witnesses. -/
def envOfNone : String → JobEnv := fun _ => envRaise

/-- Witness for C7: a filesystem with nothing in it fails the source check
with that exact error, and a world whose target directory has no supported
image exits 1 without spawning. -/
theorem claim_C7_validation_order_witness :
    validate_inputs (fun _ => false) "/s.jpg" "/t" "/ff" [] =
      .error (.fileNotFoundError ("Source image not found: " ++ "/s.jpg"))
  ∧ (run_main (fun _ => true) "/s.jpg" "/t" "/o" (some "/ff") "/h" "/c" false
        [⟨"notes.txt", true⟩] envOfNone).exit_code = 1
  ∧ (run_main (fun _ => true) "/s.jpg" "/t" "/o" (some "/ff") "/h" "/c" false
        [⟨"notes.txt", true⟩] envOfNone).spawns = 0 :=
  ⟨claim_C7_validation_order.1 (fun _ => false) "/s.jpg" "/t" "/ff" [] rfl,
   (claim_C7_validation_order.2.2.2.2.2 (fun _ => true) "/s.jpg" "/t" "/o"
      (some "/ff") "/h" "/c" false [⟨"notes.txt", true⟩] envOfNone (by decide)).1,
   (claim_C7_validation_order.2.2.2.2.2 (fun _ => true) "/s.jpg" "/t" "/o"
      (some "/ff") "/h" "/c" false [⟨"notes.txt", true⟩] envOfNone (by decide)).2⟩

/-- C8: the exit status is 0 when the failure count is zero, 1 when a job
failed or construction raised or an unexpected exception hit, 130 on user
interrupt; `process_batch` hands `(successful, failed)` back to `main`, a
skipped-existing job counting as a success. -/
theorem claim_C8_exit_codes :
    (∀ s f, main_exit_code (.completed s f) = if f = 0 then 0 else 1)
  ∧ (∀ e, main_exit_code (.validationError e) = 1)
  ∧ main_exit_code .interrupt = 130
  ∧ main_exit_code .unexpected = 1
  ∧ (∀ source output_dir t env rest,
        env.fsBefore (output_dir ++ "/" ++ output_filename source t) = true →
        process_batch source output_dir false ((t, env) :: rest) =
          ((process_batch source output_dir false rest).1 + 1,
           (process_batch source output_dir false rest).2))
  ∧ (∀ (ex : String → Bool) src tgt od ffp home cwd verbose listing envOf p,
        (ffInit ex src tgt od ffp home cwd listing).1 = .ok p →
        (run_main ex src tgt od ffp home cwd verbose listing envOf).exit_code =
          (if (run_main ex src tgt od ffp home cwd verbose listing envOf).failed = 0
            then 0 else 1)) := by
  refine ⟨fun s f => rfl, fun e => rfl, rfl, rfl, ?_, ?_⟩
  · intro source output_dir t env rest h
    simp [process_batch, process_single_image, h]
  · intro ex src tgt od ffp home cwd verbose listing envOf p hinit
    unfold run_main
    rw [hinit]

/-- Witness for C8: a batch whose single job's output already exists (and
verbose off) returns `(1, 0)`, and in a world where construction succeeds
the exit code is the zero-failures test. -/
theorem claim_C8_exit_codes_witness :
    process_batch "s.jpg" "/out" false [("a.jpg", envPre)] = (1, 0)
  ∧ (run_main (fun _ => true) "/s.jpg" "/t" "/o" (some "/ff") "/h" "/c" false
        [⟨"a.jpg", true⟩] envOfNone).exit_code =
      (if (run_main (fun _ => true) "/s.jpg" "/t" "/o" (some "/ff") "/h" "/c" false
          [⟨"a.jpg", true⟩] envOfNone).failed = 0 then 0 else 1) :=
  ⟨claim_C8_exit_codes.2.2.2.2.1 "s.jpg" "/out" "a.jpg" envPre [] rfl,
   claim_C8_exit_codes.2.2.2.2.2 (fun _ => true) "/s.jpg" "/t" "/o" (some "/ff")
      "/h" "/c" false [⟨"a.jpg", true⟩] envOfNone "/ff" rfl⟩

/-- C10: `__init__` creates the output directory (`mkdir` with parents,
tolerating prior existence) only after locating the installation and
passing all validation checks: a failed construction performs no filesystem
mutation at all, a successful one performs exactly that one `mkdir`. -/
theorem claim_C10_init_atomic :
    (∀ (ex : String → Bool) src tgt od ffp home cwd listing e,
        (ffInit ex src tgt od ffp home cwd listing).1 = .error e →
        (ffInit ex src tgt od ffp home cwd listing).2 = [])
  ∧ (∀ (ex : String → Bool) src tgt od ffp home cwd listing p,
        (ffInit ex src tgt od ffp home cwd listing).1 = .ok p →
        (ffInit ex src tgt od ffp home cwd listing).2 =
          [.mkdirParentsExistOk od]) := by
  constructor
  · intro ex src tgt od ffp home cwd listing e h
    unfold ffInit at h ⊢
    cases hic : initChecks ex src tgt ffp home cwd listing with
    | error e2 => rfl
    | ok q => rw [hic] at h; simp at h
  · intro ex src tgt od ffp home cwd listing p h
    unfold ffInit at h ⊢
    cases hic : initChecks ex src tgt ffp home cwd listing with
    | error e2 => rw [hic] at h; simp at h
    | ok q => rfl

/-- Witness for C10: a failing construction (missing source) performs no
mutation; a succeeding one performs exactly the output-directory `mkdir`. -/
theorem claim_C10_init_atomic_witness :
    (ffInit (fun _ => false) "/s.jpg" "/t" "/o" (some "/ff") "/h" "/c" []).2 = []
  ∧ (ffInit (fun _ => true) "/s.jpg" "/t" "/o" (some "/ff") "/h" "/c"
        [⟨"a.jpg", true⟩]).2 = [.mkdirParentsExistOk "/o"] :=
  ⟨claim_C10_init_atomic.1 (fun _ => false) "/s.jpg" "/t" "/o" (some "/ff")
      "/h" "/c" [] (.fileNotFoundError ("Source image not found: " ++ "/s.jpg"))
      rfl,
   claim_C10_init_atomic.2 (fun _ => true) "/s.jpg" "/t" "/o" (some "/ff")
      "/h" "/c" [⟨"a.jpg", true⟩] "/ff" rfl⟩

/-- A filesystem state in which the first default candidate `~/facefusion`
exists and contains `facefusion.py` (with `Path.home() = /home/u`). -/
def sampleFs : String → Bool := fun s =>
  (s == "/home/u/facefusion") || (s == "/home/u/facefusion/facefusion.py")

/-- C2 (code bug): in every filesystem state where a default candidate
matches, `_find_facefusion` reaches `if self.verbose:` (line 41) before
`__init__` has assigned `self.verbose` (line 26), so auto-detection raises
`AttributeError` instead of returning the candidate — construction never
succeeds through the probe path.  The third conjunct shows the intended
behaviour the claim describes: with the attribute assigned, the first
matching candidate would be selected. -/
theorem claim_C2_locator_bug :
    find_facefusion sampleFs "/home/u" "/cwd" none = .error .attributeError
  ∧ (ffInit sampleFs "/home/u/src.jpg" "/t" "/o" none "/home/u" "/cwd"
        [⟨"a.jpg", true⟩]).1 = .error .attributeError
  ∧ find_facefusion sampleFs "/home/u" "/cwd" (some false) =
      .ok "/home/u/facefusion" :=
  ⟨rfl, rfl, rfl⟩

/-- Counterexample for C9: when nothing exists, the locator raises
`FileNotFoundError`, and the probed candidate `/h/projects/facefusion`
(the fourth entry of `possible_paths`) is not named in the message — the
message does not even contain the substring `projects`. -/
theorem claim_C9_counterexample :
    find_facefusion (fun _ => false) "/h" "/c" none =
      .error (.fileNotFoundError facefusion_not_found_msg)
  ∧ "/h/projects/facefusion" ∈ possible_paths "/h" "/c"
  ∧ hasSub "projects".data facefusion_not_found_msg.data = false :=
  ⟨rfl, by decide, by decide⟩

/-- C9 (amended): when no candidate matches, the locator fails with a
not-found error whose message names three of the four probed default
locations (`~/facefusion`, `./facefusion`, `/opt/facefusion`) and omits the
fourth (`~/projects/facefusion`). -/
theorem claim_C9_locator_not_found (ex : String → Bool) (home cwd : String)
    (v : Option Bool)
    (h : ∀ p ∈ possible_paths home cwd, (ex p && ex (p ++ "/facefusion.py")) = false) :
    find_facefusion ex home cwd v =
      .error (.fileNotFoundError facefusion_not_found_msg)
  ∧ hasSub "~/facefusion".data facefusion_not_found_msg.data = true
  ∧ hasSub "./facefusion".data facefusion_not_found_msg.data = true
  ∧ hasSub "/opt/facefusion".data facefusion_not_found_msg.data = true
  ∧ hasSub "projects".data facefusion_not_found_msg.data = false := by
  refine ⟨?_, by decide, by decide, by decide, by decide⟩
  unfold find_facefusion
  rw [List.find?_eq_none.mpr (fun p hp => by simp [h p hp])]

/-- Witness for C9 (amended): the empty filesystem. -/
theorem claim_C9_locator_not_found_witness :
    find_facefusion (fun _ => false) "/h2" "/c2" (some true) =
      .error (.fileNotFoundError facefusion_not_found_msg) :=
  (claim_C9_locator_not_found (fun _ => false) "/h2" "/c2" (some true)
    (by intro p hp; rfl)).1

end FFB
